import Mathlib

/-!
# Shallow embedding of the chrootmanager privileged-session subsystem

This file embeds the elevation/session-cache subsystem of the
`xulien/chrootmanager` repository (`src/elevation.rs`, `src/chroot/auth.rs`,
`src/error.rs`) and proves the testable properties stated in the design
document about it.

Modelling conventions:
* `std::time::Instant` is modelled as a `Nat` (seconds); `Instant::elapsed`
  becomes truncated subtraction `now - last`, and `Duration` amounts are `Nat`
  seconds.
* A spawned external process (`Command::output()`) is modelled by an
  environment `Env` that fixes the outcome of each kind of invocation:
  `none` models an `io::Error` from spawning, `some out` a captured `Output`.
* The externally visible side effects (which processes were spawned) are
  recorded as a `List SpawnEvent` trace returned alongside each operation.
* The `Arc<Mutex<...>>` interior mutability of `ElevationCache` is modelled by
  explicit state passing: each operation returns the updated cache.  Lock
  acquisition is modelled as always succeeding (the Rust code's poisoned-lock
  fallbacks are unreachable in the absence of panics).
* The `session_keeper_handle : Option<JoinHandle<()>>` field only matters
  through `Option::take` in `stop_session_keeper`, so it is modelled by the
  Boolean `keeperHandlePresent`.  The keeper thread's own loop body is
  modelled separately by `keeperTick` / `keeperRenewalAttempts`.
-/

namespace Chrootmanager

/-- Captured result of a spawned process, mirroring the parts of
`std::process::Output` the code reads: `status.success()`, `stdout`,
`stderr` (the byte buffers are modelled as `String`, matching the code's
`String::from_utf8_lossy` reads). -/
structure Output where
  success : Bool
  stdout : String
  stderr : String
deriving Repr, DecidableEq

/-- `ElevationError` from `src/error.rs` (payload of `IoError` omitted). -/
inductive ElevationError where
  | AccessDenied
  | PermissionDenied
  | IoError
  | AuthenticationRequired
  | FailedToAcquireElevationLock
  | SudoNotAvailable
deriving Repr, DecidableEq

/-- The relevant part of `ChrootError` from `src/error.rs`. -/
inductive ChrootError where
  | Command (msg : String)
  | Elevation (e : ElevationError)
deriving Repr, DecidableEq

/-- One external process spawn, the unit of observable side effect. -/
inductive SpawnEvent where
  /-- `which sudo` (the `is_sudo_available` probe). -/
  | whichSudo
  /-- `sudo -v` — the interactive validation run by `ElevationCache::authenticate`. -/
  | sudoValidate
  /-- `sudo -n -v` — the keeper's non-interactive refresh. -/
  | sudoRefresh
  /-- `sudo -n <command> <args>` — elevated execution of the target program. -/
  | sudoExec (command : String) (args : List String)
deriving Repr, DecidableEq

/-- The external world: outcomes of the process spawns and the current time.
`none` models an `io::Error` from spawning. -/
structure Env where
  sudoAvailable : Bool
  validateResult : Option Output
  execResult : String → List String → Option Output
  now : Nat

/-- Does the character list `s` start with `p`? (helper for substring search) -/
def charsStartWith : List Char → List Char → Bool
  | [], _ => true
  | _ :: _, [] => false
  | p :: ps, c :: cs => p == c && charsStartWith ps cs

/-- Does the character list contain `pat` as a contiguous run? -/
def charsContain (pat : List Char) : List Char → Bool
  | [] => charsStartWith pat []
  | c :: cs => charsStartWith pat (c :: cs) || charsContain pat cs

/-- Rust `str::contains(pat)` — substring containment. -/
def strContains (s pat : String) : Bool :=
  charsContain pat.data s.data

/-- `ElevationCache` from `src/elevation.rs` (lines 19-25). -/
structure ElevationCache where
  authenticated : Bool
  /-- `cache_duration`, in seconds. -/
  cacheDuration : Nat
  /-- `last_auth : Option<Instant>`. -/
  lastAuth : Option Nat
  /-- whether `session_keeper_handle` holds a handle. -/
  keeperHandlePresent : Bool
deriving Repr, DecidableEq

/-- `ElevationCache::new(cache_duration_minutes)`. -/
def ElevationCache.new (cacheDurationMinutes : Nat) : ElevationCache :=
  { authenticated := false
    cacheDuration := cacheDurationMinutes * 60
    lastAuth := none
    keeperHandlePresent := false }

/-- `ElevationCache::is_authenticated` (lines 39-49): returns the
`authenticated` flag when `last_auth` is set and younger than
`cache_duration`; otherwise `false`. -/
def ElevationCache.is_authenticated (c : ElevationCache) (now : Nat) : Bool :=
  match c.lastAuth with
  | some last => if now - last < c.cacheDuration then c.authenticated else false
  | none => false

/-- `ElevationCache::stop_session_keeper` (lines 143-161): if a keeper handle
is present, take it and flip `authenticated` to `false` (the cooperative stop
signal), then join the thread. -/
def ElevationCache.stop_session_keeper (c : ElevationCache) : ElevationCache :=
  if c.keeperHandlePresent then
    { c with keeperHandlePresent := false, authenticated := false }
  else c

/-- `ElevationCache::start_session_keeper` (lines 86-140) as seen from the
cache state: stop any existing keeper, then spawn a new keeper thread and
store its handle.  (The spawned thread's own behaviour is `keeperTick` /
`keeperRenewalAttempts` below.) -/
def ElevationCache.start_session_keeper (c : ElevationCache) : ElevationCache :=
  let c' := c.stop_session_keeper
  { c' with keeperHandlePresent := true }

/-- `ElevationCache::invalidate` (lines 164-169). -/
def ElevationCache.invalidate (c : ElevationCache) : ElevationCache :=
  ElevationCache.stop_session_keeper
    { c with authenticated := false, lastAuth := none }

/-- Result of one gateway operation: the returned value, the cache state it
leaves behind, and the processes it spawned. -/
structure StepResult (α : Type) where
  result : Except ElevationError α
  cache : ElevationCache
  trace : List SpawnEvent

/-- `ElevationCache::authenticate` (lines 52-83): cached fast path, else run
`sudo -v`; on success set `authenticated`/`last_auth` and start a session
keeper, on failure return `AccessDenied`. -/
def ElevationCache.authenticate (env : Env) (c : ElevationCache) : StepResult Unit :=
  if c.is_authenticated env.now then
    ⟨.ok (), c, []⟩
  else
    match env.validateResult with
    | none => ⟨.error .IoError, c, [.sudoValidate]⟩
    | some out =>
      if out.success then
        let c' := { c with authenticated := true, lastAuth := some env.now }
        ⟨.ok (), c'.start_session_keeper, [.sudoValidate]⟩
      else
        ⟨.error .AccessDenied, c, [.sudoValidate]⟩

/-- `SecureElevation` from `src/elevation.rs` (lines 173-176). -/
structure SecureElevation where
  cache : ElevationCache
deriving Repr, DecidableEq

/-- `SecureElevation::new` (lines 180-190): a 45-minute cache.  (The
`is_sudo_available` probe in `new` only feeds log output.) -/
def SecureElevation.new : SecureElevation :=
  ⟨ElevationCache.new 45⟩

/-- `SecureElevation::is_authenticated` (lines 294-296). -/
def SecureElevation.is_authenticated (s : SecureElevation) (now : Nat) : Bool :=
  s.cache.is_authenticated now

/-- `SecureElevation::invalidate_cache` (lines 301-303). -/
def SecureElevation.invalidate_cache (s : SecureElevation) : SecureElevation :=
  ⟨s.cache.invalidate⟩

/-- `SecureElevation::pre_authenticate` (lines 193-205). -/
def SecureElevation.pre_authenticate (env : Env) (s : SecureElevation) : StepResult Unit :=
  if env.sudoAvailable = false then
    ⟨.error .SudoNotAvailable, s.cache, [.whichSudo]⟩
  else if s.cache.is_authenticated env.now = false then
    let r := s.cache.authenticate env
    ⟨r.result, r.cache, .whichSudo :: r.trace⟩
  else
    ⟨.ok (), s.cache, [.whichSudo]⟩

/-- `SecureElevation::execute_command` (lines 208-245): availability probe,
ensure authentication (authenticating on the spot if the cache is invalid),
run `sudo -n <command> <args>`, then classify a non-success exit by its
stderr: session-expiry phrases invalidate the cache and yield `AccessDenied`,
permission phrases yield `PermissionDenied`, anything else is returned as a
plain `Ok(output)`. -/
def SecureElevation.execute_command (env : Env) (s : SecureElevation)
    (command : String) (args : List String) : StepResult Output :=
  if env.sudoAvailable = false then
    ⟨.error .SudoNotAvailable, s.cache, [.whichSudo]⟩
  else
    let a : StepResult Unit :=
      if s.cache.is_authenticated env.now then ⟨.ok (), s.cache, []⟩
      else s.cache.authenticate env
    match a.result with
    | .error e => ⟨.error e, a.cache, .whichSudo :: a.trace⟩
    | .ok _ =>
      match env.execResult command args with
      | none => ⟨.error .IoError, a.cache, .whichSudo :: a.trace ++ [.sudoExec command args]⟩
      | some out =>
        let tr := .whichSudo :: a.trace ++ [.sudoExec command args]
        if out.success = false then
          if strContains out.stderr "a password is required"
              || strContains out.stderr "sorry, try again" then
            ⟨.error .AccessDenied, a.cache.invalidate, tr⟩
          else if strContains out.stderr "Permission denied"
              || strContains out.stderr "permission denied" then
            ⟨.error .PermissionDenied, a.cache, tr⟩
          else
            ⟨.ok out, a.cache, tr⟩
        else
          ⟨.ok out, a.cache, tr⟩

/-- The loop body of `SecureElevation::execute_batch_commands`
(lines 284-288): run each command through `execute_command`, stopping at the
first failure (the `?` operator). -/
def SecureElevation.execLoop (env : Env) :
    ElevationCache → List (String × List String) → StepResult (List Output)
  | c, [] => ⟨.ok [], c, []⟩
  | c, (command, args) :: rest =>
    let r := SecureElevation.execute_command env ⟨c⟩ command args
    match r.result with
    | .error e => ⟨.error e, r.cache, r.trace⟩
    | .ok out =>
      let r2 := SecureElevation.execLoop env r.cache rest
      match r2.result with
      | .error e => ⟨.error e, r2.cache, r.trace ++ r2.trace⟩
      | .ok outs => ⟨.ok (out :: outs), r2.cache, r.trace ++ r2.trace⟩

/-- `SecureElevation::execute_batch_commands` (lines 274-291). -/
def SecureElevation.execute_batch_commands (env : Env) (s : SecureElevation)
    (commands : List (String × List String)) : StepResult (List Output) :=
  if env.sudoAvailable = false then
    ⟨.error .SudoNotAvailable, s.cache, [.whichSudo]⟩
  else
    let a : StepResult Unit :=
      if s.cache.is_authenticated env.now then ⟨.ok (), s.cache, []⟩
      else s.cache.authenticate env
    match a.result with
    | .error e => ⟨.error e, a.cache, .whichSudo :: a.trace⟩
    | .ok _ =>
      let r := SecureElevation.execLoop env a.cache commands
      ⟨r.result, r.cache, .whichSudo :: a.trace ++ r.trace⟩

/-- Outcome of one iteration of the keeper thread's loop body
(`start_session_keeper`, lines 97-134): the `authenticated` flag after the
iteration and whether the loop continues.  `refresh` is the outcome of the
`sudo -n -v` spawn (`none` = spawn error). -/
structure KeeperTick where
  authenticated : Bool
  continues : Bool
deriving Repr, DecidableEq

/-- One keeper iteration (lines 100-131): stop if the flag was cleared;
otherwise refresh — a non-success refresh clears the flag and stops, a spawn
error stops without touching the flag, a success continues. -/
def keeperTick (authenticated : Bool) (refresh : Option Output) : KeeperTick :=
  if authenticated = false then
    ⟨authenticated, false⟩
  else
    match refresh with
    | some out =>
      if out.success = false then ⟨false, false⟩ else ⟨authenticated, true⟩
    | none => ⟨authenticated, false⟩

/-- Number of `sudo -n -v` renewal attempts the keeper loop
(lines 93-137) performs, starting from iteration counter `iterations` with
bound `maxIterations = cache_duration.as_secs() / 60`.  `authAt n` is the
value of the shared `authenticated` flag the keeper observes on tick `n`
(modelling concurrent invalidation), `refresh n` the outcome of tick `n`'s
refresh spawn. -/
def keeperRenewalAttempts (authAt : Nat → Bool) (refresh : Nat → Option Output)
    (iterations maxIterations : Nat) : Nat :=
  if _h : iterations < maxIterations then
    if authAt iterations = false then 0
    else
      match refresh iterations with
      | some out =>
        if out.success = false then 1
        else 1 + keeperRenewalAttempts authAt refresh (iterations + 1) maxIterations
      | none => 1
  else 0
termination_by maxIterations - iterations
decreasing_by omega

/-- The two process-wide lazily initialized cells: `GLOBAL_ELEVATION`
(a `OnceLock` in `src/elevation.rs`, line 9) and `SHARED_ELEVATION`
(a `LazyLock` in `src/chroot/auth.rs`, lines 6-7).  Each starts out
uninitialized and is filled with `SecureElevation::new()` on first access. -/
structure ProcessState where
  globalElevation : Option SecureElevation
  sharedElevation : Option SecureElevation
deriving Repr, DecidableEq

/-- The state of a freshly started process: neither static initialized. -/
def ProcessState.init : ProcessState := ⟨none, none⟩

/-- `get_global_elevation` (`src/elevation.rs`, lines 12-16):
`GLOBAL_ELEVATION.get_or_init(|| SecureElevation::new())`. -/
def get_global_elevation (p : ProcessState) : SecureElevation × ProcessState :=
  match p.globalElevation with
  | some s => (s, p)
  | none => (SecureElevation.new, { p with globalElevation := some SecureElevation.new })

/-- First access to `SHARED_ELEVATION` (`src/chroot/auth.rs`, lines 6-7). -/
def SHARED_ELEVATION (p : ProcessState) : SecureElevation × ProcessState :=
  match p.sharedElevation with
  | some s => (s, p)
  | none => (SecureElevation.new, { p with sharedElevation := some SecureElevation.new })

/-- `ChrootUnit::pre_authenticate_operations` (`src/chroot/auth.rs`,
lines 74-86): pre-authenticate through the `get_global_elevation` cell. -/
def ChrootUnit.pre_authenticate_operations (env : Env) (p : ProcessState) :
    Except ChrootError Unit × ProcessState × List SpawnEvent :=
  let (s, p1) := get_global_elevation p
  let r := s.pre_authenticate env
  (r.result.mapError ChrootError.Elevation,
   { p1 with globalElevation := some ⟨r.cache⟩ }, r.trace)

/-- `ChrootUnit::is_authenticated` (`src/chroot/auth.rs`, lines 89-95):
reads the `get_global_elevation` cell. -/
def ChrootUnit.is_authenticated (env : Env) (p : ProcessState) : Bool × ProcessState :=
  let (s, p1) := get_global_elevation p
  (s.is_authenticated env.now, p1)

/-- `ChrootUnit::is_elevation_cached` (`src/chroot/auth.rs`, lines 64-70):
reads the `SHARED_ELEVATION` cell. -/
def ChrootUnit.is_elevation_cached (env : Env) (p : ProcessState) : Bool × ProcessState :=
  let (s, p1) := SHARED_ELEVATION p
  (s.is_authenticated env.now, p1)

/-- `ChrootUnit::execute_elevated` (`src/chroot/auth.rs`, lines 12-21):
executes through the `SHARED_ELEVATION` cell. -/
def ChrootUnit.execute_elevated (env : Env) (p : ProcessState)
    (command : String) (args : List String) :
    Except ChrootError Output × ProcessState × List SpawnEvent :=
  let (s, p1) := SHARED_ELEVATION p
  let r := s.execute_command env command args
  (r.result.mapError ChrootError.Elevation,
   { p1 with sharedElevation := some ⟨r.cache⟩ }, r.trace)

/-- `ChrootUnit::execute_command_with_logging` (`src/chroot/auth.rs`,
lines 23-46): run `execute_elevated`, then turn a non-success exit status
into `ChrootError::Command("{desc} failed: {stderr}")`. -/
def ChrootUnit.execute_command_with_logging (env : Env) (p : ProcessState)
    (command : String) (args : List String) (operationDesc : String) :
    Except ChrootError Output × ProcessState × List SpawnEvent :=
  let (r, p1, tr) := ChrootUnit.execute_elevated env p command args
  match r with
  | .error e => (.error e, p1, tr)
  | .ok out =>
    if out.success then (.ok out, p1, tr)
    else (.error (ChrootError.Command (operationDesc ++ " failed: " ++ out.stderr)), p1, tr)

/-! ## Concrete fixtures used by the witness and counterexample theorems -/

/-- An environment in which `sudo` exists but the operator fails the
interactive `sudo -v` validation. -/
def deniedAuthEnv : Env :=
  { sudoAvailable := true
    validateResult := some ⟨false, "", "sudo: 3 incorrect password attempts"⟩
    execResult := fun _ _ => some ⟨true, "", ""⟩
    now := 0 }

/-- An environment in which `sudo` exists and `sudo -v` succeeds at time 0. -/
def freshAuthEnv : Env :=
  { sudoAvailable := true
    validateResult := some ⟨true, "", ""⟩
    execResult := fun _ _ => some ⟨true, "", ""⟩
    now := 0 }

/-- An environment at time 3000 s (past the 2700 s TTL) where `sudo -v`
succeeds again. -/
def reAuthEnv : Env :=
  { sudoAvailable := true
    validateResult := some ⟨true, "", ""⟩
    execResult := fun _ _ => some ⟨true, "", ""⟩
    now := 3000 }

/-- A cache confirmed at time 0 whose session keeper from that session is
still registered, observed after its TTL elapsed. -/
def staleKeeperCache : ElevationCache :=
  { authenticated := true
    cacheDuration := 2700
    lastAuth := some 0
    keeperHandlePresent := true }

/-- A currently valid cache: confirmed at time 0, default 45-minute TTL. -/
def confirmedCache : ElevationCache :=
  { authenticated := true
    cacheDuration := 2700
    lastAuth := some 0
    keeperHandlePresent := true }

/-- An environment (time 10 s) where `mount` fails with the session-expiry
diagnostic and every other command fails with a permission diagnostic. -/
def expiredSessionEnv : Env :=
  { sudoAvailable := true
    validateResult := some ⟨true, "", ""⟩
    execResult := fun command _ =>
      if command = "mount" then some ⟨false, "", "sudo: a password is required"⟩
      else some ⟨false, "", "umount: /mnt: permission denied"⟩
    now := 10 }

/-- An environment where the elevated tool itself fails with a diagnostic
matching none of the four recognized stderr patterns. -/
def toolFailureEnv : Env :=
  { sudoAvailable := true
    validateResult := some ⟨true, "", ""⟩
    execResult := fun _ _ => some ⟨false, "", "mount: special device /dev/loop9 does not exist"⟩
    now := 10 }

/-- A batch environment where `umount` is rejected with a permission
diagnostic and everything else succeeds. -/
def batchEnv : Env :=
  { sudoAvailable := true
    validateResult := some ⟨true, "", ""⟩
    execResult := fun command _ =>
      if command = "umount" then some ⟨false, "", "umount: /pr: Permission denied"⟩
      else some ⟨true, "done", ""⟩
    now := 10 }

/-! ## Helper lemmas -/

/-- After `invalidate`, the validity check fails at every time. -/
theorem invalidate_not_authenticated (c : ElevationCache) (now : Nat) :
    (c.invalidate).is_authenticated now = false := by
  obtain ⟨a, d, l, k⟩ := c
  cases k <;>
    simp [ElevationCache.invalidate, ElevationCache.stop_session_keeper,
      ElevationCache.is_authenticated]

/-- Bounding lemma for the keeper loop: at most `maxIterations - iterations`
renewal attempts remain. -/
theorem keeperRenewalAttempts_le (authAt : Nat → Bool) (refresh : Nat → Option Output) :
    ∀ (k iterations maxIterations : Nat), maxIterations - iterations ≤ k →
      keeperRenewalAttempts authAt refresh iterations maxIterations
        ≤ maxIterations - iterations := by
  intro k
  induction k with
  | zero =>
    intro iterations maxIterations hk
    have h : ¬ iterations < maxIterations := by omega
    unfold keeperRenewalAttempts
    simp [h]
  | succ n ih =>
    intro iterations maxIterations hk
    unfold keeperRenewalAttempts
    by_cases h : iterations < maxIterations
    · rw [dif_pos h]
      cases ha : authAt iterations with
      | false => simp
      | true =>
        rw [if_neg (by simp)]
        cases hr : refresh iterations with
        | none =>
          show 1 ≤ maxIterations - iterations
          omega
        | some out =>
          show (if out.success = false then 1
              else 1 + keeperRenewalAttempts authAt refresh (iterations + 1) maxIterations)
            ≤ maxIterations - iterations
          by_cases hs : out.success = false
          · rw [if_pos hs]
            omega
          · rw [if_neg hs]
            have := ih (iterations + 1) maxIterations (by omega)
            omega
    · rw [dif_neg h]
      omega

/-- With `sudo` available and a valid session, one `execute_command` spawns
exactly the availability probe and the elevated target, in that order. -/
theorem execute_command_valid_trace (env : Env) (c : ElevationCache)
    (command : String) (args : List String)
    (hsudo : env.sudoAvailable = true) (hauth : c.is_authenticated env.now = true) :
    (SecureElevation.execute_command env ⟨c⟩ command args).trace
      = [.whichSudo, .sudoExec command args] := by
  unfold SecureElevation.execute_command
  simp only [hsudo, hauth]
  cases hr : env.execResult command args with
  | none => simp [hr]
  | some out =>
    simp only [hr]
    split_ifs <;> simp_all

/-- With `sudo` available and a valid session, an `execute_command` that
returns `Ok` leaves the cache exactly as it was. -/
theorem execute_command_valid_ok_cache (env : Env) (c : ElevationCache)
    (command : String) (args : List String) (out : Output)
    (hsudo : env.sudoAvailable = true) (hauth : c.is_authenticated env.now = true)
    (hok : (SecureElevation.execute_command env ⟨c⟩ command args).result = .ok out) :
    (SecureElevation.execute_command env ⟨c⟩ command args).cache = c := by
  unfold SecureElevation.execute_command at hok ⊢
  simp only [hsudo, hauth] at hok ⊢
  cases hr : env.execResult command args with
  | none => simp [hr] at hok
  | some o =>
    simp only [hr] at hok ⊢
    split_ifs at hok ⊢ <;> simp_all

/-- Decomposition of the batch loop at its first failing command: once a
prefix `as` has run successfully and the next command `b` fails, the loop
over `as ++ b :: cs` returns `b`'s error, `b`'s post-state and the trace of
`as` and `b` only — nothing from `cs` runs. -/
theorem execLoop_append_fail (env : Env) (b : String × List String)
    (cs : List (String × List String)) :
    ∀ (as : List (String × List String)) (c : ElevationCache) (outs : List Output)
      (c1 : ElevationCache) (tr1 : List SpawnEvent) (e : ElevationError)
      (c2 : ElevationCache) (tr2 : List SpawnEvent),
      SecureElevation.execLoop env c as = ⟨.ok outs, c1, tr1⟩ →
      SecureElevation.execute_command env ⟨c1⟩ b.1 b.2 = ⟨.error e, c2, tr2⟩ →
      SecureElevation.execLoop env c (as ++ b :: cs) = ⟨.error e, c2, tr1 ++ tr2⟩ := by
  intro as
  induction as with
  | nil =>
    intro c outs c1 tr1 e c2 tr2 hpre hfail
    obtain ⟨bc, ba⟩ := b
    simp only [SecureElevation.execLoop, StepResult.mk.injEq, Except.ok.injEq] at hpre
    obtain ⟨ho, hc, ht⟩ := hpre
    subst ho hc ht
    simp [SecureElevation.execLoop, hfail]
  | cons a as ih =>
    intro c outs c1 tr1 e c2 tr2 hpre hfail
    obtain ⟨ac, aa⟩ := a
    simp only [List.cons_append, SecureElevation.execLoop] at hpre ⊢
    cases hres : (SecureElevation.execute_command env ⟨c⟩ ac aa).result with
    | error e' =>
      rw [hres] at hpre
      simp at hpre
    | ok out' =>
      rw [hres] at hpre
      dsimp only at hpre ⊢
      cases hres2 : (SecureElevation.execLoop env
          (SecureElevation.execute_command env ⟨c⟩ ac aa).cache as).result with
      | error e' =>
        rw [hres2] at hpre
        simp at hpre
      | ok outs' =>
        rw [hres2] at hpre
        dsimp only at hpre
        simp only [StepResult.mk.injEq, Except.ok.injEq] at hpre
        obtain ⟨ho, hc, ht⟩ := hpre
        have hfull : SecureElevation.execLoop env
            (SecureElevation.execute_command env ⟨c⟩ ac aa).cache as
            = ⟨(SecureElevation.execLoop env
                  (SecureElevation.execute_command env ⟨c⟩ ac aa).cache as).result,
               (SecureElevation.execLoop env
                  (SecureElevation.execute_command env ⟨c⟩ ac aa).cache as).cache,
               (SecureElevation.execLoop env
                  (SecureElevation.execute_command env ⟨c⟩ ac aa).cache as).trace⟩ := rfl
        rw [hres2, hc] at hfull
        have hrec := ih ((SecureElevation.execute_command env ⟨c⟩ ac aa).cache)
          outs' c1 (SecureElevation.execLoop env
            (SecureElevation.execute_command env ⟨c⟩ ac aa).cache as).trace
          e c2 tr2 hfull hfail
        subst ht
        simp [hrec, List.append_assoc]

/-- On full success, the batch loop returns one output per command. -/
theorem execLoop_ok_length (env : Env) :
    ∀ (cmds : List (String × List String)) (c : ElevationCache) (outs : List Output)
      (c' : ElevationCache) (tr : List SpawnEvent),
      SecureElevation.execLoop env c cmds = ⟨.ok outs, c', tr⟩ →
      outs.length = cmds.length := by
  intro cmds
  induction cmds with
  | nil =>
    intro c outs c' tr h
    simp only [SecureElevation.execLoop, StepResult.mk.injEq, Except.ok.injEq] at h
    simp [← h.1]
  | cons a as ih =>
    intro c outs c' tr h
    obtain ⟨ac, aa⟩ := a
    simp only [SecureElevation.execLoop] at h
    cases hres : (SecureElevation.execute_command env ⟨c⟩ ac aa).result with
    | error e' =>
      rw [hres] at h
      simp at h
    | ok out' =>
      rw [hres] at h
      dsimp only at h
      cases hres2 : (SecureElevation.execLoop env
          (SecureElevation.execute_command env ⟨c⟩ ac aa).cache as).result with
      | error e' =>
        rw [hres2] at h
        simp at h
      | ok outs' =>
        rw [hres2] at h
        dsimp only at h
        simp only [StepResult.mk.injEq, Except.ok.injEq] at h
        have hfull : SecureElevation.execLoop env
            (SecureElevation.execute_command env ⟨c⟩ ac aa).cache as
            = ⟨(SecureElevation.execLoop env
                  (SecureElevation.execute_command env ⟨c⟩ ac aa).cache as).result,
               (SecureElevation.execLoop env
                  (SecureElevation.execute_command env ⟨c⟩ ac aa).cache as).cache,
               (SecureElevation.execLoop env
                  (SecureElevation.execute_command env ⟨c⟩ ac aa).cache as).trace⟩ := rfl
        rw [hres2] at hfull
        have := ih ((SecureElevation.execute_command env ⟨c⟩ ac aa).cache)
          outs' (SecureElevation.execLoop env
            (SecureElevation.execute_command env ⟨c⟩ ac aa).cache as).cache
          (SecureElevation.execLoop env
            (SecureElevation.execute_command env ⟨c⟩ ac aa).cache as).trace hfull
        simp [← h.1, this]

/-- On full success from a valid session, the batch loop pairs each command
with exactly the output its `execute_command` returns, in order.  (A
successful `execute_command` leaves the cache unchanged, so every command in
the batch runs against the same cache state `c`.) -/
theorem execLoop_ok_outputs (env : Env) (hsudo : env.sudoAvailable = true) :
    ∀ (cmds : List (String × List String)) (c : ElevationCache),
      c.is_authenticated env.now = true →
      ∀ (outs : List Output) (c' : ElevationCache) (tr : List SpawnEvent),
      SecureElevation.execLoop env c cmds = ⟨.ok outs, c', tr⟩ →
      List.Forall₂ (fun cmd out =>
          (SecureElevation.execute_command env ⟨c⟩ cmd.1 cmd.2).result = Except.ok out)
        cmds outs := by
  intro cmds
  induction cmds with
  | nil =>
    intro c hc outs c' tr h
    simp only [SecureElevation.execLoop, StepResult.mk.injEq, Except.ok.injEq] at h
    rw [← h.1]
    exact List.Forall₂.nil
  | cons a as ih =>
    intro c hc outs c' tr h
    obtain ⟨ac, aa⟩ := a
    simp only [SecureElevation.execLoop] at h
    cases hres : (SecureElevation.execute_command env ⟨c⟩ ac aa).result with
    | error e' =>
      rw [hres] at h
      simp at h
    | ok out' =>
      rw [hres] at h
      dsimp only at h
      have hcache := execute_command_valid_ok_cache env c ac aa out' hsudo hc hres
      rw [hcache] at h
      cases hres2 : (SecureElevation.execLoop env c as).result with
      | error e' =>
        rw [hres2] at h
        simp at h
      | ok outs' =>
        rw [hres2] at h
        dsimp only at h
        simp only [StepResult.mk.injEq, Except.ok.injEq] at h
        obtain ⟨ho, hc2, ht⟩ := h
        have hfull : SecureElevation.execLoop env c as
            = ⟨(SecureElevation.execLoop env c as).result,
               (SecureElevation.execLoop env c as).cache,
               (SecureElevation.execLoop env c as).trace⟩ := rfl
        rw [hres2] at hfull
        have hrec := ih c hc outs' (SecureElevation.execLoop env c as).cache
          (SecureElevation.execLoop env c as).trace hfull
        rw [← ho]
        exact List.Forall₂.cons hres hrec

/-- Starting from a valid session, the batch loop never re-authenticates:
its trace contains no `sudo -v` spawn. -/
theorem execLoop_no_validate (env : Env) (hsudo : env.sudoAvailable = true) :
    ∀ (cmds : List (String × List String)) (c : ElevationCache),
      c.is_authenticated env.now = true →
      SpawnEvent.sudoValidate ∉ (SecureElevation.execLoop env c cmds).trace := by
  intro cmds
  induction cmds with
  | nil =>
    intro c hc
    simp [SecureElevation.execLoop]
  | cons a as ih =>
    intro c hc
    obtain ⟨ac, aa⟩ := a
    simp only [SecureElevation.execLoop]
    have htr := execute_command_valid_trace env c ac aa hsudo hc
    cases hres : (SecureElevation.execute_command env ⟨c⟩ ac aa).result with
    | error e =>
      dsimp only
      simp [htr]
    | ok out =>
      have hcache := execute_command_valid_ok_cache env c ac aa out hsudo hc hres
      dsimp only
      have hrec : SpawnEvent.sudoValidate ∉ (SecureElevation.execLoop env
          (SecureElevation.execute_command env ⟨c⟩ ac aa).cache as).trace := by
        rw [hcache]
        exact ih c hc
      cases hres2 : (SecureElevation.execLoop env
          (SecureElevation.execute_command env ⟨c⟩ ac aa).cache as).result <;>
        simp [htr, List.mem_append, hrec]

/-! ## Claim theorems -/

/-- Claim C5: for every cache state and current time,
`ElevationCache.is_authenticated` returns `true` iff the `authenticated`
flag is set, `last_auth` holds a confirmation time, and the elapsed time
`now - last_auth` is strictly below the TTL; and the gateway built by
`SecureElevation::new` uses a 45-minute (2700 s) TTL.  The check is a pure
function of the cache and the clock (no side effects). -/
theorem is_authenticated_iff_fresh_confirmation :
    (∀ (c : ElevationCache) (now : Nat),
      c.is_authenticated now = true ↔
        c.authenticated = true ∧ ∃ t, c.lastAuth = some t ∧ now - t < c.cacheDuration)
    ∧ SecureElevation.new.cache.cacheDuration = 45 * 60 := by
  refine ⟨fun c now => ?_, rfl⟩
  obtain ⟨a, d, l, k⟩ := c
  cases l with
  | none => simp [ElevationCache.is_authenticated]
  | some t =>
    by_cases hlt : now - t < d <;>
      simp [ElevationCache.is_authenticated, hlt]

/-- Claim C8: `invalidate` is idempotent — from any cache state it leaves
`authenticated = false` and `last_auth = None`, makes `is_authenticated`
false at every time, and a second consecutive `invalidate` changes
nothing. -/
theorem invalidate_idempotent :
    ∀ c : ElevationCache,
      (c.invalidate).authenticated = false
      ∧ (c.invalidate).lastAuth = none
      ∧ (∀ now, (c.invalidate).is_authenticated now = false)
      ∧ (c.invalidate).invalidate = c.invalidate := by
  intro c
  obtain ⟨a, d, l, k⟩ := c
  cases k <;>
    simp [ElevationCache.invalidate, ElevationCache.stop_session_keeper,
      ElevationCache.is_authenticated]

/-- Claim C9: the session keeper's loop performs at most
`cache_duration / 60` renewal attempts — one per one-minute tick — whatever
the observed flag values and refresh outcomes are, and for the default
45-minute cache of `SecureElevation::new` that bound is 45.  (The loop is a
total function in this embedding; the bound is what makes the Rust loop
terminate even if `invalidate` is never called.) -/
theorem session_keeper_renewals_bounded :
    (∀ (c : ElevationCache) (authAt : Nat → Bool) (refresh : Nat → Option Output),
      keeperRenewalAttempts authAt refresh 0 (c.cacheDuration / 60)
        ≤ c.cacheDuration / 60)
    ∧ (∀ minutes, (ElevationCache.new minutes).cacheDuration / 60 = minutes)
    ∧ SecureElevation.new.cache.cacheDuration / 60 = 45 := by
  refine ⟨fun c authAt refresh => ?_, fun minutes => ?_, rfl⟩
  · have h := keeperRenewalAttempts_le authAt refresh (c.cacheDuration / 60) 0
      (c.cacheDuration / 60) (by omega)
    simpa using h
  · simp [ElevationCache.new]

/-- Claim C4 (code bug): from a cache whose TTL has expired but whose
session-keeper handle from the earlier session is still registered, a
successful `authenticate` returns `Ok` yet leaves the cache *unconfirmed*:
`start_session_keeper` calls `stop_session_keeper`, which flips
`authenticated` back to `false` after `authenticate` had just set it, so
`is_authenticated()` is `false` right after the successful authentication.
The final conjunct shows the contrast: from the same state with the stale
handle removed (after `invalidate`), the same authentication does confirm
the cache. -/
theorem authenticate_with_stale_keeper_not_confirmed :
    staleKeeperCache.is_authenticated reAuthEnv.now = false
    ∧ (staleKeeperCache.authenticate reAuthEnv).result = .ok ()
    ∧ (staleKeeperCache.authenticate reAuthEnv).cache.authenticated = false
    ∧ (staleKeeperCache.authenticate reAuthEnv).cache.is_authenticated reAuthEnv.now = false
    ∧ ((staleKeeperCache.invalidate).authenticate reAuthEnv).cache.is_authenticated
        reAuthEnv.now = true :=
  ⟨rfl, rfl, rfl, rfl, rfl⟩

/-- Claim C2 (code bug): the process does *not* hold exactly one shared
`SecureElevation`.  `GLOBAL_ELEVATION` (`src/elevation.rs`) and
`SHARED_ELEVATION` (`src/chroot/auth.rs`) are two distinct lazily
initialized statics, each constructing its own instance.  Starting from a
fresh process, authenticating through `pre_authenticate_operations` (which
uses the former) succeeds and makes `ChrootUnit::is_authenticated` true,
while `ChrootUnit::is_elevation_cached` — which reads the latter — still
reports `false`. -/
theorem pre_authenticate_not_visible_to_shared_cell :
    (ChrootUnit.pre_authenticate_operations freshAuthEnv ProcessState.init).1 = .ok ()
    ∧ (ChrootUnit.is_authenticated freshAuthEnv
        (ChrootUnit.pre_authenticate_operations freshAuthEnv ProcessState.init).2.1).1 = true
    ∧ (ChrootUnit.is_elevation_cached freshAuthEnv
        (ChrootUnit.pre_authenticate_operations freshAuthEnv ProcessState.init).2.1).1 = false :=
  ⟨rfl, rfl, rfl⟩

/-- Claim C7 (counterexample): when the keeper's renewal spawn fails
outright (`Err(_)` from `Command::output`, modelled by `none`), the keeper
stops but leaves `authenticated` untouched — it does NOT set it to `false`
as the claim states. -/
theorem keeper_spawn_error_leaves_flag :
    keeperTick true none = ⟨true, false⟩
    ∧ (keeperTick true none).authenticated ≠ false :=
  ⟨rfl, by decide⟩

/-- Claim C7 (amended): on a keeper tick with the flag set, a renewal that
*runs and reports non-success* clears `authenticated` and stops; a renewal
whose *spawn fails outright* stops the keeper without modifying
`authenticated`. -/
theorem keeper_tick_renewal_failure (out : Output) (h : out.success = false) :
    keeperTick true (some out) = ⟨false, false⟩
    ∧ (∀ authenticated, keeperTick authenticated none = ⟨authenticated, false⟩) := by
  constructor
  · unfold keeperTick
    simp [h]
  · intro a
    cases a <;> simp [keeperTick]

/-- Witness for `keeper_tick_renewal_failure` at the concrete failing
output `⟨false, "", ""⟩`. -/
theorem keeper_tick_renewal_failure_witness :
    (Output.mk false "" "").success = false
    ∧ (keeperTick true (some ⟨false, "", ""⟩) = ⟨false, false⟩
       ∧ (∀ authenticated, keeperTick authenticated none = ⟨authenticated, false⟩)) :=
  ⟨rfl, keeper_tick_renewal_failure ⟨false, "", ""⟩ rfl⟩

/-- Claim C1 (counterexample): called with no prior authentication,
`execute_command` does not return `AuthenticationRequired`; at this concrete
input (fresh gateway, operator fails the prompt) it returns `AccessDenied`,
and the elevation mechanism (`sudo -v`) *was* spawned. -/
theorem execute_unauthenticated_spawns_elevation :
    (SecureElevation.execute_command deniedAuthEnv SecureElevation.new
        "mount" ["-o", "bind"]).result = .error .AccessDenied
    ∧ ElevationError.AccessDenied ≠ ElevationError.AuthenticationRequired
    ∧ SpawnEvent.sudoValidate ∈
        (SecureElevation.execute_command deniedAuthEnv SecureElevation.new
          "mount" ["-o", "bind"]).trace := by
  refine ⟨rfl, by decide, ?_⟩
  show SpawnEvent.sudoValidate ∈ ([.whichSudo, .sudoValidate] : List SpawnEvent)
  simp

/-- Claim C1 (amended): with no valid cached session, `execute_command`
attempts authentication itself by spawning the elevation mechanism
(`sudo -v`); if that attempt fails — the validation reports non-success, or
its spawn fails — the call returns that failure (`AccessDenied` resp. an
I/O error), and the trace `[whichSudo, sudoValidate]` shows the target
program is never spawned. -/
theorem execute_unauthenticated_failed_auth (env : Env) (s : SecureElevation)
    (command : String) (args : List String)
    (hsudo : env.sudoAvailable = true)
    (hnoauth : s.cache.is_authenticated env.now = false) :
    (∀ out, env.validateResult = some out → out.success = false →
      SecureElevation.execute_command env s command args
        = ⟨.error .AccessDenied, s.cache, [.whichSudo, .sudoValidate]⟩)
    ∧ (env.validateResult = none →
      SecureElevation.execute_command env s command args
        = ⟨.error .IoError, s.cache, [.whichSudo, .sudoValidate]⟩) := by
  constructor
  · intro out hv hs
    unfold SecureElevation.execute_command
    simp [hsudo, hnoauth, ElevationCache.authenticate, hv, hs]
  · intro hv
    unfold SecureElevation.execute_command
    simp [hsudo, hnoauth, ElevationCache.authenticate, hv]

/-- Witness for `execute_unauthenticated_failed_auth` at a concrete
environment where the operator fails the `sudo -v` prompt. -/
theorem execute_unauthenticated_failed_auth_witness :
    deniedAuthEnv.sudoAvailable = true
    ∧ SecureElevation.new.cache.is_authenticated deniedAuthEnv.now = false
    ∧ SecureElevation.execute_command deniedAuthEnv SecureElevation.new "cp" ["a", "b"]
        = ⟨.error .AccessDenied, SecureElevation.new.cache, [.whichSudo, .sudoValidate]⟩ :=
  ⟨rfl, rfl,
    (execute_unauthenticated_failed_auth deniedAuthEnv SecureElevation.new "cp" ["a", "b"]
        rfl rfl).1
      ⟨false, "", "sudo: 3 incorrect password attempts"⟩ rfl rfl⟩

/-- Claim C3: with a valid session, when the elevated command's stderr
matches a session-expiry phrase (`"a password is required"` or
`"sorry, try again"`), `execute_command` invalidates the cache before
returning the failure, so `is_authenticated` is false afterwards at every
time; when stderr matches only a permission phrase, it returns
`PermissionDenied` and the cache is left exactly as it was. -/
theorem execute_command_expiry_and_permission (env : Env) (c : ElevationCache)
    (command : String) (args : List String) (out : Output)
    (hsudo : env.sudoAvailable = true)
    (hauth : c.is_authenticated env.now = true)
    (hex : env.execResult command args = some out)
    (hns : out.success = false) :
    ((strContains out.stderr "a password is required" = true
        ∨ strContains out.stderr "sorry, try again" = true) →
      SecureElevation.execute_command env ⟨c⟩ command args
          = ⟨.error .AccessDenied, c.invalidate, [.whichSudo, .sudoExec command args]⟩
      ∧ ∀ now', (SecureElevation.execute_command env ⟨c⟩ command args).cache.is_authenticated
          now' = false)
    ∧ (strContains out.stderr "a password is required" = false →
       strContains out.stderr "sorry, try again" = false →
       (strContains out.stderr "Permission denied" = true
         ∨ strContains out.stderr "permission denied" = true) →
      SecureElevation.execute_command env ⟨c⟩ command args
          = ⟨.error .PermissionDenied, c, [.whichSudo, .sudoExec command args]⟩) := by
  constructor
  · intro hpat
    have he : SecureElevation.execute_command env ⟨c⟩ command args
        = ⟨.error .AccessDenied, c.invalidate, [.whichSudo, .sudoExec command args]⟩ := by
      unfold SecureElevation.execute_command
      rcases hpat with hp | hp <;> simp [hsudo, hauth, hex, hns, hp]
    exact ⟨he, fun now' => by rw [he]; exact invalidate_not_authenticated c now'⟩
  · intro h1 h2 hperm
    unfold SecureElevation.execute_command
    rcases hperm with hp | hp <;> simp [hsudo, hauth, hex, hns, h1, h2, hp]

/-- Witness for `execute_command_expiry_and_permission`: a `mount` whose
stderr carries the password-required phrase invalidates the cache; a
`umount` rejected with `"permission denied"` leaves the cache untouched. -/
theorem execute_command_expiry_and_permission_witness :
    confirmedCache.is_authenticated expiredSessionEnv.now = true
    ∧ SecureElevation.execute_command expiredSessionEnv ⟨confirmedCache⟩ "mount" ["/dev/sda1"]
        = ⟨.error .AccessDenied, confirmedCache.invalidate,
            [.whichSudo, .sudoExec "mount" ["/dev/sda1"]]⟩
    ∧ SecureElevation.execute_command expiredSessionEnv ⟨confirmedCache⟩ "umount" ["/mnt"]
        = ⟨.error .PermissionDenied, confirmedCache,
            [.whichSudo, .sudoExec "umount" ["/mnt"]]⟩ :=
  ⟨rfl,
    ((execute_command_expiry_and_permission expiredSessionEnv confirmedCache
        "mount" ["/dev/sda1"] ⟨false, "", "sudo: a password is required"⟩
        rfl rfl rfl rfl).1 (Or.inl rfl)).1,
    (execute_command_expiry_and_permission expiredSessionEnv confirmedCache
        "umount" ["/mnt"] ⟨false, "", "umount: /mnt: permission denied"⟩
        rfl rfl rfl rfl).2 rfl rfl (Or.inr rfl)⟩

/-- Claim C10: with a valid session, an elevated command that exits with a
non-success status whose stderr matches none of the four recognized
patterns is returned as plain `Ok(output)` with the cache untouched; the
failing status is visible only to callers that inspect the output, as
`ChrootUnit::execute_command_with_logging` does when it turns the same
output into `ChrootError::Command`. -/
theorem execute_command_plain_failure_is_ok (env : Env) (c : ElevationCache)
    (command : String) (args : List String) (out : Output)
    (hsudo : env.sudoAvailable = true)
    (hauth : c.is_authenticated env.now = true)
    (hex : env.execResult command args = some out)
    (hns : out.success = false)
    (h1 : strContains out.stderr "a password is required" = false)
    (h2 : strContains out.stderr "sorry, try again" = false)
    (h3 : strContains out.stderr "Permission denied" = false)
    (h4 : strContains out.stderr "permission denied" = false) :
    SecureElevation.execute_command env ⟨c⟩ command args
        = ⟨.ok out, c, [.whichSudo, .sudoExec command args]⟩
    ∧ ∀ g desc,
        (ChrootUnit.execute_command_with_logging env ⟨g, some ⟨c⟩⟩ command args desc).1
          = .error (ChrootError.Command (desc ++ " failed: " ++ out.stderr)) := by
  have he : SecureElevation.execute_command env ⟨c⟩ command args
      = ⟨.ok out, c, [.whichSudo, .sudoExec command args]⟩ := by
    unfold SecureElevation.execute_command
    simp [hsudo, hauth, hex, hns, h1, h2, h3, h4]
  refine ⟨he, fun g desc => ?_⟩
  unfold ChrootUnit.execute_command_with_logging ChrootUnit.execute_elevated SHARED_ELEVATION
  simp [he, hns, Except.mapError]

/-- Witness for `execute_command_plain_failure_is_ok`: a `mount` of a
missing device fails with an unrecognized diagnostic; `execute_command`
returns it as `Ok`, and the logging wrapper turns it into a command
error. -/
theorem execute_command_plain_failure_is_ok_witness :
    confirmedCache.is_authenticated toolFailureEnv.now = true
    ∧ SecureElevation.execute_command toolFailureEnv ⟨confirmedCache⟩ "mount" ["/dev/loop9"]
        = ⟨.ok ⟨false, "", "mount: special device /dev/loop9 does not exist"⟩,
            confirmedCache, [.whichSudo, .sudoExec "mount" ["/dev/loop9"]]⟩
    ∧ (ChrootUnit.execute_command_with_logging toolFailureEnv ⟨none, some ⟨confirmedCache⟩⟩
          "mount" ["/dev/loop9"] "Mounting /proc").1
        = .error (ChrootError.Command
            ("Mounting /proc" ++ " failed: " ++ "mount: special device /dev/loop9 does not exist")) :=
  ⟨rfl,
    (execute_command_plain_failure_is_ok toolFailureEnv confirmedCache "mount" ["/dev/loop9"]
        ⟨false, "", "mount: special device /dev/loop9 does not exist"⟩
        rfl rfl rfl rfl rfl rfl rfl rfl).1,
    (execute_command_plain_failure_is_ok toolFailureEnv confirmedCache "mount" ["/dev/loop9"]
        ⟨false, "", "mount: special device /dev/loop9 does not exist"⟩
        rfl rfl rfl rfl rfl rfl rfl rfl).2 none "Mounting /proc"⟩

/-- Claim C6: with a valid session, `execute_batch_commands` runs the
requests through `execute_command` in order and stops at the first request
whose `execute_command` returns a failure, returning that failure; the
returned trace contains the spawns of the successful prefix and of the
failing request only — requests after the failing one are never attempted —
and it never re-authenticates (authentication is ensured once up front: no
`sudo -v` spawn appears in any batch trace).  On full success the batch
returns the outputs of all requests in order: one output per request, the
i-th returned output being exactly the output `execute_command` produces
for the i-th request. -/
theorem execute_batch_stops_at_first_failure (env : Env) (c : ElevationCache)
    (hsudo : env.sudoAvailable = true)
    (hauth : c.is_authenticated env.now = true) :
    (∀ (as : List (String × List String)) (b : String × List String)
        (cs : List (String × List String)) (outs : List Output)
        (c1 : ElevationCache) (tr1 : List SpawnEvent) (e : ElevationError)
        (c2 : ElevationCache) (tr2 : List SpawnEvent),
      SecureElevation.execLoop env c as = ⟨.ok outs, c1, tr1⟩ →
      SecureElevation.execute_command env ⟨c1⟩ b.1 b.2 = ⟨.error e, c2, tr2⟩ →
      SecureElevation.execute_batch_commands env ⟨c⟩ (as ++ b :: cs)
        = ⟨.error e, c2, .whichSudo :: (tr1 ++ tr2)⟩)
    ∧ (∀ (cmds : List (String × List String)) (outs : List Output)
        (c3 : ElevationCache) (tr3 : List SpawnEvent),
        SecureElevation.execute_batch_commands env ⟨c⟩ cmds = ⟨.ok outs, c3, tr3⟩ →
        outs.length = cmds.length
        ∧ List.Forall₂ (fun cmd out =>
            (SecureElevation.execute_command env ⟨c⟩ cmd.1 cmd.2).result = Except.ok out)
          cmds outs)
    ∧ (∀ cmds, SpawnEvent.sudoValidate ∉
        (SecureElevation.execute_batch_commands env ⟨c⟩ cmds).trace) := by
  refine ⟨?_, ?_, ?_⟩
  · intro as b cs outs c1 tr1 e c2 tr2 hpre hfail
    have hd := execLoop_append_fail env b cs as c outs c1 tr1 e c2 tr2 hpre hfail
    unfold SecureElevation.execute_batch_commands
    simp [hsudo, hauth, hd]
  · intro cmds outs c3 tr3 h
    have hb : SecureElevation.execute_batch_commands env ⟨c⟩ cmds
        = ⟨(SecureElevation.execLoop env c cmds).result,
           (SecureElevation.execLoop env c cmds).cache,
           .whichSudo :: (SecureElevation.execLoop env c cmds).trace⟩ := by
      unfold SecureElevation.execute_batch_commands
      simp [hsudo, hauth]
    rw [hb] at h
    simp only [StepResult.mk.injEq] at h
    obtain ⟨h1, h2, _⟩ := h
    have hfull : SecureElevation.execLoop env c cmds
        = ⟨(SecureElevation.execLoop env c cmds).result,
           (SecureElevation.execLoop env c cmds).cache,
           (SecureElevation.execLoop env c cmds).trace⟩ := rfl
    rw [h1, h2] at hfull
    exact ⟨execLoop_ok_length env cmds c outs c3
        (SecureElevation.execLoop env c cmds).trace hfull,
      execLoop_ok_outputs env hsudo cmds c hauth outs c3
        (SecureElevation.execLoop env c cmds).trace hfull⟩
  · intro cmds
    have hnv := execLoop_no_validate env hsudo cmds c hauth
    unfold SecureElevation.execute_batch_commands
    simp [hsudo, hauth, List.mem_cons, hnv]

/-- Witness for `execute_batch_stops_at_first_failure`: in the batch
`[mount, umount, cp]` the `mount` succeeds, the `umount` is rejected with a
permission diagnostic, and the batch returns `umount`'s error with no spawn
of `cp` in the trace. -/
theorem execute_batch_stops_at_first_failure_witness :
    batchEnv.sudoAvailable = true
    ∧ confirmedCache.is_authenticated batchEnv.now = true
    ∧ SecureElevation.execute_batch_commands batchEnv ⟨confirmedCache⟩
        [("mount", ["proc"]), ("umount", ["/pr"]), ("cp", ["resolv"])]
      = ⟨.error .PermissionDenied, confirmedCache,
          .whichSudo :: ([.whichSudo, .sudoExec "mount" ["proc"]]
            ++ [.whichSudo, .sudoExec "umount" ["/pr"]])⟩ :=
  ⟨rfl, rfl,
    (execute_batch_stops_at_first_failure batchEnv confirmedCache rfl rfl).1
      [("mount", ["proc"])] ("umount", ["/pr"]) [("cp", ["resolv"])]
      [⟨true, "done", ""⟩] confirmedCache
      [.whichSudo, .sudoExec "mount" ["proc"]]
      .PermissionDenied confirmedCache
      [.whichSudo, .sudoExec "umount" ["/pr"]]
      rfl rfl⟩

end Chrootmanager
